import Mathlib

/-!
Shallow embedding of the replication-lag monitor (`src/lag-monitor.py`) and
the shard-distribution analyzer (`src/check_skew.py`).

Modelling conventions:
* Wall-clock readings and millisecond latencies (Python floats) are embedded
  as rationals (`ℚ`).
* Blocking retry loops are embedded as fuel-indexed step functions over an
  oracle `Nat → outcome` giving the store's response to the k-th call of the
  loop.  A `polling` / `none` result means the loop is *still running* after
  the given number of iterations; a run whose result is `polling` for every
  fuel value is a non-terminating execution.  A genuine Python `return` is
  always a distinct constructor, so "still looping" is never conflated with
  "returned None".
* External collaborators (the OpenSearch client, `faker`, `pandas`) appear
  only through the values they hand back to the code under test.
-/

/-- Per-collection timeout counters `self.timeouts[index]`
(lag-monitor.py line 332): one mutable tally for `"primary"` and one for
`"replica"`. -/
structure TimeoutCounters where
  primary : Nat
  replica : Nat
deriving DecidableEq, Repr

/-- Outcome of one `self.client.get(index, id, preference, timeout)` call
inside `wait_for_document` (lag-monitor.py lines 396-401): the reply arrived
with `found = True` (carrying the elapsed milliseconds
`(time.time() - start_time) * 1000` the poller would record at that moment),
the reply arrived with `found = False`, the call raised an exception whose
text contains `"timeout"`, or it raised any other exception. -/
inductive GetOutcome where
  | found (elapsedMs : ℚ)
  | notFound
  | errTimeout
  | errOther
deriving DecidableEq, Repr

/-- Whether the store reply was a successful `found = True` document read. -/
def GetOutcome.isFound : GetOutcome → Bool
  | .found _ => true
  | _ => false

/-- `self.timeouts[index][node_type] += 1` (lag-monitor.py line 409): bump
the counter matching the read preference of the current poll. -/
def bump_counter (isPrimary : Bool) (c : TimeoutCounters) : TimeoutCounters :=
  if isPrimary then { c with primary := c.primary + 1 }
  else { c with replica := c.replica + 1 }

/-- Result of running the `wait_for_document` loop for a bounded number of
iterations: `visible e c` is the in-loop `return (time.time() - start_time)
* 1000` (line 404), `timedOut c` is the trailing `return None` (line 411),
and `polling c` means the `while` loop is still running after the given
number of iterations.  Each constructor carries the counter state. -/
inductive WaitResult where
  | visible (elapsedMs : ℚ) (counters : TimeoutCounters)
  | timedOut (counters : TimeoutCounters)
  | polling (counters : TimeoutCounters)
deriving DecidableEq, Repr

/-- `ReplicationTester.wait_for_document` (lag-monitor.py lines 385-411),
run for at most `fuel` iterations of its `while not res:` loop.  `get k` is
the outcome of the k-th `client.get` call, `res` is the Python variable of
the same name (initialised to `False` at line 393, so an execution of the
source starts with `res := false`).  The loop body: on a found reply return
the elapsed time; on a not-found reply leave `res = False` and retry; on a
timeout exception bump the matching counter and retry; on any other
exception just retry.  Falling out of the loop (only possible with
`res = true`) reaches the trailing `return None`. -/
def wait_for_document (get : Nat → GetOutcome) (isPrimary : Bool) :
    Nat → Nat → Bool → TimeoutCounters → WaitResult
  | 0, _, _, c => .polling c
  | fuel + 1, k, res, c =>
    if res then
      .timedOut c
    else
      match get k with
      | .found e => .visible e c
      | .notFound => wait_for_document get isPrimary fuel (k + 1) false c
      | .errTimeout =>
          wait_for_document get isPrimary fuel (k + 1) false (bump_counter isPrimary c)
      | .errOther => wait_for_document get isPrimary fuel (k + 1) false c

/-- Outcome of one `self.client.count(index)` call inside
`wait_for_threshold` (lag-monitor.py lines 250, 262-265): a document count,
or an exception. -/
inductive CountOutcome where
  | ok (count : Nat)
  | err
deriving DecidableEq, Repr

/-- `IndexMonitor.wait_for_threshold` (lag-monitor.py lines 246-260), run
for at most `fuel` iterations of its `while True:` loop.  `counts k` is the
outcome of the k-th count query.  `some b` means the function returned the
Python value `b`; `none` means the loop is still running (sleeping and
retrying) after `fuel` iterations.  The body: if the count reaches
`doc_threshold`, `return True`; on a lower count or on an exception, sleep
`poll_interval` and retry. -/
def wait_for_threshold (counts : Nat → CountOutcome) (threshold : Nat) :
    Nat → Nat → Option Bool
  | 0, _ => none
  | fuel + 1, k =>
    match counts k with
    | .ok c =>
        if threshold ≤ c then some true
        else wait_for_threshold counts threshold fuel (k + 1)
    | .err => wait_for_threshold counts threshold fuel (k + 1)

/-- The caller's branch on `wait_for_threshold`'s return value in
`ReplicationTester.run_tests` (lag-monitor.py lines 340-344): the index is
skipped (the `else` branch logging "Skipping tests") exactly when the
monitor returned a falsy value. -/
def tests_skipped (reached : Bool) : Bool := !reached

/-- Whether one count outcome keeps `wait_for_threshold` waiting: a count
below the threshold, or a query error. -/
def below_or_error (threshold : Nat) : CountOutcome → Bool
  | .ok c => decide (c < threshold)
  | .err => true

/-- Environment of one `ReplicationTester.run_single_test` call
(lag-monitor.py lines 414-445): whether `client.index` succeeded (line 420),
and the values the two `wait_for_document` calls hand back — per that
function's interface, the elapsed milliseconds, or `None` on timeout
(`none` here). -/
structure TrialEnv where
  writeOk : Bool
  primaryPoll : Option ℚ
  replicaPoll : Option ℚ
deriving DecidableEq, Repr

/-- The store-facing steps `run_single_test` performs, in order: the
document write (line 420), the primary-preference visibility poll
(line 426), the replica-preference visibility poll (line 432). -/
inductive TrialAction where
  | writeDoc
  | pollPrimary
  | pollReplica
deriving DecidableEq, Repr

/-- The numeric part of the result dict built at lines 437-445:
`indexing_time_ms = primary_time` and
`replication_time_ms = replica_time - primary_time`.  The remaining keys
(`test_id`, `timestamp`, `doc_type`, `doc_size_kb`) are environment
pass-throughs, and the `timeouts` value is a reference into mutable state,
modelled separately by `RunState` below. -/
structure TrialRow where
  indexingTimeMs : ℚ
  replicationTimeMs : ℚ
deriving DecidableEq, Repr

/-- `ReplicationTester.run_single_test` (lag-monitor.py lines 414-445):
returns the ordered list of store-facing steps it performed together with
its return value (`none` is the Python `return None` of the discard paths).
A failed write returns `None` before any poll; a `None` from the primary
poll returns `None` before the replica poll is issued; otherwise the
replica poll runs and, if it also yields a time, the result row is built. -/
def run_single_test (env : TrialEnv) : List TrialAction × Option TrialRow :=
  if env.writeOk then
    match env.primaryPoll with
    | none => ([.writeDoc, .pollPrimary], none)
    | some p =>
      match env.replicaPoll with
      | none => ([.writeDoc, .pollPrimary, .pollReplica], none)
      | some r =>
          ([.writeDoc, .pollPrimary, .pollReplica],
           some { indexingTimeMs := p, replicationTimeMs := r - p })
  else ([.writeDoc], none)

/-- A `TrialEnv` whose `client.index` call always fails: `run_single_test`
takes its `except` branch at line 422 and returns `None`. -/
def write_always_fails_env : TrialEnv :=
  { writeOk := false, primaryPoll := none, replicaPoll := none }

/-- The `while successful_iterations < self.config.iterations:` loop of
`ReplicationTester.test_index` (lag-monitor.py lines 348-375), run with at
most `fuel` remaining passes.  `runSingle n` is the value `run_single_test`
returns on the n-th attempt.  Arguments after `fuel`: the current
`successful_iterations` and `iteration` counters.  Each pass: run one test,
count it if its result is not `None`, increment `iteration`, and `break`
once `iteration > 3 * iterations` (the cap check at line 370 runs *after*
the increment at line 367).  Returns the final
`(successful_iterations, iteration)` pair, `iteration` being the total
number of attempts.  `test_index` below passes enough fuel that the
fuel-exhausted branch is never reached. -/
def test_index_go (runSingle : Nat → Option TrialRow) (iters : Nat) :
    Nat → Nat → Nat → Nat × Nat
  | 0, succ, iter => (succ, iter)
  | fuel + 1, succ, iter =>
    if succ < iters then
      let succ2 := if (runSingle iter).isSome then succ + 1 else succ
      let iter2 := iter + 1
      if 3 * iters < iter2 then (succ2, iter2)
      else test_index_go runSingle iters fuel succ2 iter2
    else (succ, iter)

/-- `ReplicationTester.test_index` for one collection: the loop above
started from `successful_iterations = 0`, `iteration = 0` (lines 350-351).
The cap at line 370 bounds the loop by `3 * iters + 1` passes, so fuel
`3 * iters + 2` always suffices. -/
def test_index (runSingle : Nat → Option TrialRow) (iters : Nat) : Nat × Nat :=
  test_index_go runSingle iters (3 * iters + 2) 0 0

/-- Environment of one `DocumentGenerator.generate_document` call
(lag-monitor.py lines 26-45): `baseSize` is the serialized UTF-8 byte size
of the randomly shaped document *with its empty `description` field and the
metadata block* (the `current_size` of line 37), and `textEncLen n` is the
serialized UTF-8 byte size of the text blob `self.faker.text(max_nb_chars
= n)` returns, as placed inside the JSON string (the library only promises
the result is at most `n` characters long; it has no lower bound). -/
structure GenEnv where
  baseSize : Nat
  textEncLen : Nat → Nat

/-- Final serialized size computed by `generate_document` (lag-monitor.py
lines 37-42): if the document is below the minimum, the empty `description`
is replaced by a faker text blob requested at `min - current + 100`
characters (the `+ 100` "buffer for JSON overhead" of line 39), which adds
exactly the blob's encoded length to the serialized size; otherwise the
document is returned unpadded. -/
def generate_document_size (minSizeBytes : Nat) (env : GenEnv) : Nat :=
  if env.baseSize < minSizeBytes then
    env.baseSize + env.textEncLen (minSizeBytes - env.baseSize + 100)
  else env.baseSize

/-- A `GenEnv` exhibiting a short faker draw: the base document serializes
to 300 bytes, and the text blob comes back at 500 encoded bytes regardless
of how many characters were requested (capped at the request, so the
library's documented upper bound `len ≤ max_nb_chars` holds). -/
def short_text_env : GenEnv :=
  { baseSize := 300, textEncLen := fun n => Nat.min 500 n }

/-- Events visible to one collection's timeout counters during a run of
`test_index`: a primary-preference poll times out (lag-monitor.py line 409
with `node_type = "primary"`), a replica-preference poll times out (same
line with `"replica"`), or a successful trial emits its result dict
(lines 437-445) — which stores the *reference* `self.timeouts[index]` under
its `"timeouts"` key and appends a value snapshot row to the CSV via
`save_result` (lines 275-291). -/
inductive RunEvent where
  | primaryTimeout
  | replicaTimeout
  | emitResult
deriving DecidableEq, Repr

/-- State shared by all trials of one collection: the single mutable
counter dict `self.timeouts[index]`, the rows already persisted to the CSV
(each a copy of the counter values at write time, since `csv.DictWriter`
serializes the dict's current contents), and how many in-memory results
have been emitted — each one holding a reference to the same counter
dict. -/
structure RunState where
  counters : TimeoutCounters
  csvRows : List TimeoutCounters
  memResults : Nat
deriving DecidableEq, Repr

/-- Counter state at the start of `test_index` for a fresh collection
(lag-monitor.py line 332 initialises both tallies to 0). -/
def initial_run_state : RunState :=
  { counters := { primary := 0, replica := 0 }, csvRows := [], memResults := 0 }

/-- Effect of one event on the collection state.  `emitResult` copies the
current counter values into the persisted CSV row but only *aliases* them
in the in-memory result (Python `result['timeouts'] = self.timeouts[index]`
stores the dict object itself, not a copy). -/
def run_step (s : RunState) : RunEvent → RunState
  | .primaryTimeout =>
      { s with counters := { s.counters with primary := s.counters.primary + 1 } }
  | .replicaTimeout =>
      { s with counters := { s.counters with replica := s.counters.replica + 1 } }
  | .emitResult =>
      { s with csvRows := s.csvRows ++ [s.counters], memResults := s.memResults + 1 }

/-- Run a sequence of events from a state. -/
def run_events (s : RunState) (es : List RunEvent) : RunState :=
  es.foldl run_step s

/-- Reading the `"timeouts"` field of *any* in-memory result of this
collection: because every emitted result dict stores a reference to the one
shared dict `self.timeouts[index]`, the value read is always the counters'
current state, whichever result is inspected and whenever it is read. -/
def read_mem_timeouts (s : RunState) : TimeoutCounters := s.counters

/-- One row of the per-collection results list fed to
`TestResultsHandler.generate_report` (lag-monitor.py lines 293-320) — the
two latency columns the report aggregates.  Rows exist only for successful
trials, so no entry is missing (`NaN`-free, hence `df.dropna()` keeps every
row). -/
structure ReportRow where
  indexingTimeMs : ℚ
  replicationTimeMs : ℚ
deriving DecidableEq, Repr

/-- pandas column access `df[name]` for a DataFrame built as
`pd.DataFrame(rows)` from a list of row dicts: the frame's columns are the
union of the rows' keys, so a frame built from the empty list has *no*
columns and any column access raises `KeyError`; otherwise the column is
the list of that field's values. -/
def df_column (rows : List ReportRow) (name : String) (f : ReportRow → ℚ) :
    Except String (List ℚ) :=
  if rows.isEmpty then .error ("KeyError: " ++ name)
  else .ok (rows.map f)

/-- Insertion of one value into a sorted list (ascending). -/
def insert_sorted (x : ℚ) : List ℚ → List ℚ
  | [] => [x]
  | y :: ys => if x ≤ y then x :: y :: ys else y :: insert_sorted x ys

/-- The sorted sample underlying the pandas quantile: `Series.quantile`
sorts the values before interpolating. -/
def sort_values (xs : List ℚ) : List ℚ :=
  xs.foldr insert_sorted []

/-- `Series.quantile(q)` with pandas' default `interpolation='linear'` (the
method `df['...'].quantile(...)` uses at lag-monitor.py lines 304-311): on
the sorted sample `s` of length `n`, the virtual position is
`h = q * (n - 1)`; the result interpolates linearly between the values at
positions `⌊h⌋` and `⌊h⌋ + 1`.  The quantile of an empty series is `NaN`,
modelled as `none`. -/
def series_quantile (xs : List ℚ) (q : ℚ) : Option ℚ :=
  match sort_values xs with
  | [] => none
  | x :: rest =>
    let s := x :: rest
    let n : ℚ := (s.length : ℚ)
    let h : ℚ := q * (n - 1)
    let i : Nat := (⌊h⌋).toNat
    let lo := s.getD i 0
    let hi := s.getD (i + 1) lo
    some (lo + (h - (⌊h⌋ : ℚ)) * (hi - lo))

/-- One per-collection entry of the final report dict (lag-monitor.py
lines 300-313): total and successful trial counts and the three quantiles
of each latency column. -/
structure ReportEntry where
  totalTests : Nat
  successfulTests : Nat
  indexingP50 : Option ℚ
  indexingP90 : Option ℚ
  indexingP99 : Option ℚ
  replicationP50 : Option ℚ
  replicationP90 : Option ℚ
  replicationP99 : Option ℚ
deriving DecidableEq, Repr

/-- The body of `generate_report`'s per-index loop (lag-monitor.py
lines 297-313): build the DataFrame, count rows (`len(df)`) and non-`NaN`
rows (`len(df.dropna())`, which equals `len(df)` since successful-trial
rows have every field), then access the two latency columns — the first
access on an empty frame raises `KeyError: 'indexing_time_ms'` — and take
their 0.5 / 0.9 / 0.99 quantiles. -/
def generate_report_entry (rows : List ReportRow) : Except String ReportEntry := do
  let idx ← df_column rows "indexing_time_ms" (fun r => r.indexingTimeMs)
  let rep ← df_column rows "replication_time_ms" (fun r => r.replicationTimeMs)
  pure
    { totalTests := rows.length
      successfulTests := rows.length
      indexingP50 := series_quantile idx (1 / 2)
      indexingP90 := series_quantile idx (9 / 10)
      indexingP99 := series_quantile idx (99 / 100)
      replicationP50 := series_quantile rep (1 / 2)
      replicationP90 := series_quantile rep (9 / 10)
      replicationP99 := series_quantile rep (99 / 100) }

/-- `TestResultsHandler.generate_report` (lag-monitor.py lines 293-320)
over the accumulated `self.results` mapping: one entry per collection, in
order; an exception raised while processing any collection propagates out
of the whole report (and aborts the run at `main`, line 474). -/
def generate_report (results : List (String × List ReportRow)) :
    Except String (List (String × ReportEntry)) :=
  results.mapM fun p => do
    let e ← generate_report_entry p.2
    pure (p.1, e)

/-- The latency sample `[10, 20, 30, 40, 50]` (given to the report out of
order, since `Series.quantile` sorts) in both latency columns. -/
def sample_rows : List ReportRow :=
  [⟨30, 30⟩, ⟨10, 10⟩, ⟨50, 50⟩, ⟨20, 20⟩, ⟨40, 40⟩]

/-- `is_internal_index` (check_skew.py lines 5-6):
`index_name.startswith('.')`, i.e. the name's first character is `'.'`.
Stated on the character list of the name. -/
def is_internal_index (name : String) : Bool :=
  name.data.head? = some '.'

/-- The per-index fields of `index_summary` that
`analyze_index_distribution` reads (check_skew.py lines 90, 101): the lists
`list(stats['primaries'].values())` and `list(stats['replicas'].values())`
of per-node primary- and replica-shard counts. -/
structure IndexStats where
  primaryCounts : List Nat
  replicaCounts : List Nat
deriving DecidableEq, Repr

/-- Python `min(list)` — `none` on an empty list (where Python would raise,
but the source only calls it on non-empty lists). -/
def list_min : List Nat → Option Nat
  | [] => none
  | x :: xs => some (xs.foldl Nat.min x)

/-- Python `max(list)`. -/
def list_max : List Nat → Option Nat
  | [] => none
  | x :: xs => some (xs.foldl Nat.max x)

/-- One spread check of `analyze_index_distribution` (check_skew.py
lines 89-98 for primaries, 100-109 for replicas): with a non-empty count
list, the index is flagged imbalanced when `max - min > 1`; an empty count
list is never flagged (`if primary_counts:` guards the check). -/
def counts_imbalanced (counts : List Nat) : Bool :=
  match list_min counts, list_max counts with
  | some mn, some mx => decide (1 < mx - mn)
  | _, _ => false

/-- The `is_balanced` flag built at check_skew.py lines 85-109: it starts
`True` and is set to `False` by either failed spread check, so it ends up
`True` exactly when neither count list is flagged. -/
def index_is_balanced (stats : IndexStats) : Bool :=
  !counts_imbalanced stats.primaryCounts && !counts_imbalanced stats.replicaCounts

/-- `analyze_index_distribution` (check_skew.py lines 74-113) restricted to
the `is_balanced` verdict: every non-internal index of the summary gets an
entry; indexes whose name starts with `'.'` are skipped entirely by the
`if not is_internal_index(index_name):` guard at line 78. -/
def analyze_index_distribution (summary : List (String × IndexStats)) :
    List (String × Bool) :=
  (summary.filter fun p => !is_internal_index p.1).map
    fun p => (p.1, index_is_balanced p.2)

/-- The `wait_for_document` loop can only fall through to its trailing
`return None` with `res = true`, but `res` is `False` on entry and every
retry path re-enters the loop with `res` still `False`: the `return None`
at line 411 is dead code, whatever the store replies. -/
theorem wait_for_document_never_timed_out (get : Nat → GetOutcome) (isPrimary : Bool) :
    ∀ fuel k c r,
      wait_for_document get isPrimary fuel k false c ≠ WaitResult.timedOut r := by
  intro fuel
  induction fuel with
  | zero => intro k c r h; exact WaitResult.noConfusion h
  | succ f ih =>
    intro k c r h
    simp only [wait_for_document, Bool.false_eq_true, if_false] at h
    cases hg : get k with
    | found e => rw [hg] at h; exact WaitResult.noConfusion h
    | notFound => rw [hg] at h; exact ih (k + 1) c r h
    | errTimeout => rw [hg] at h; exact ih (k + 1) _ r h
    | errOther => rw [hg] at h; exact ih (k + 1) c r h

/-- On any response sequence that never finds the document and never raises
a timeout, the `wait_for_document` loop is still running after every number
of iterations, with the counters untouched: the poll has no deadline. -/
theorem wait_for_document_retries_forever (get : Nat → GetOutcome) (isPrimary : Bool)
    (hget : ∀ j, get j = GetOutcome.notFound ∨ get j = GetOutcome.errOther) :
    ∀ fuel k c,
      wait_for_document get isPrimary fuel k false c = WaitResult.polling c := by
  intro fuel
  induction fuel with
  | zero => intro k c; rfl
  | succ f ih =>
    intro k c
    rcases hget k with h | h <;> simp [wait_for_document, h, ih]

/-- C1: the consistency poll `wait_for_document` does NOT terminate under
the claimed deadline.  First conjunct: started as the source starts it
(`res = False`), the loop never reaches the `return None` (`TimedOut`)
outcome, for any store behaviour.  Second and third conjuncts: under an
endless sequence of not-found replies, or of non-timeout errors, the loop
is still polling after every number of iterations — it retries forever
instead of returning `TimedOut`. -/
theorem wait_for_document_no_deadline :
    (∀ (get : Nat → GetOutcome) (isPrimary : Bool) (fuel k : Nat)
        (c r : TimeoutCounters),
        wait_for_document get isPrimary fuel k false c ≠ WaitResult.timedOut r) ∧
    (∀ (isPrimary : Bool) (fuel k : Nat) (c : TimeoutCounters),
        wait_for_document (fun _ => GetOutcome.notFound) isPrimary fuel k false c =
          WaitResult.polling c) ∧
    (∀ (isPrimary : Bool) (fuel k : Nat) (c : TimeoutCounters),
        wait_for_document (fun _ => GetOutcome.errOther) isPrimary fuel k false c =
          WaitResult.polling c) :=
  ⟨fun get p fuel k c r => wait_for_document_never_timed_out get p fuel k c r,
   fun p fuel k c =>
     wait_for_document_retries_forever _ p (fun _ => Or.inl rfl) fuel k c,
   fun p fuel k c =>
     wait_for_document_retries_forever _ p (fun _ => Or.inr rfl) fuel k c⟩

/-- Whenever `wait_for_threshold` returns, the value returned is `True`. -/
theorem wait_for_threshold_some_true (counts : Nat → CountOutcome) (threshold : Nat) :
    ∀ fuel k b, wait_for_threshold counts threshold fuel k = some b → b = true := by
  intro fuel
  induction fuel with
  | zero => intro k b h; exact Option.noConfusion h
  | succ f ih =>
    intro k b h
    cases hc : counts k with
    | ok c =>
      simp only [wait_for_threshold, hc] at h
      by_cases hth : threshold ≤ c
      · rw [if_pos hth] at h
        exact (Option.some.injEq _ _ ▸ h).symm
      · rw [if_neg hth] at h
        exact ih (k + 1) b h
    | err =>
      simp only [wait_for_threshold, hc] at h
      exact ih (k + 1) b h

/-- While every count query comes back below the threshold or errors out,
`wait_for_threshold` is still looping after any number of iterations. -/
theorem wait_for_threshold_stuck (counts : Nat → CountOutcome) (threshold : Nat)
    (hlow : ∀ j, below_or_error threshold (counts j) = true) :
    ∀ fuel k, wait_for_threshold counts threshold fuel k = none := by
  intro fuel
  induction fuel with
  | zero => intro k; rfl
  | succ f ih =>
    intro k
    have h := hlow k
    cases hc : counts k with
    | ok c =>
      rw [hc] at h
      simp only [below_or_error, decide_eq_true_eq] at h
      simp [wait_for_threshold, hc, Nat.not_le_of_lt h, ih]
    | err => simp [wait_for_threshold, hc, ih]

/-- C5: `wait_for_threshold` only ever terminates with success.  First
conjunct: any returned value is `True`, so the caller's skip branch
(`tests_skipped`) is unreachable.  Second conjunct: a count meeting the
threshold returns `True` on that very iteration.  Third conjunct: below-
threshold counts and query errors just keep the loop running — it is still
polling after every number of iterations, and no execution returns a
failure value. -/
theorem wait_for_threshold_only_succeeds :
    (∀ (counts : Nat → CountOutcome) (threshold fuel k : Nat) (b : Bool),
        wait_for_threshold counts threshold fuel k = some b →
        b = true ∧ tests_skipped b = false) ∧
    (∀ (counts : Nat → CountOutcome) (threshold fuel k c : Nat),
        counts k = CountOutcome.ok c → threshold ≤ c →
        wait_for_threshold counts threshold (fuel + 1) k = some true) ∧
    (∀ (counts : Nat → CountOutcome) (threshold : Nat),
        (∀ j, below_or_error threshold (counts j) = true) →
        ∀ fuel k, wait_for_threshold counts threshold fuel k = none) := by
  refine ⟨fun counts th fuel k b h => ?_, fun counts th fuel k c hc hth => ?_,
    fun counts th hlow fuel k => wait_for_threshold_stuck counts th hlow fuel k⟩
  · have hb := wait_for_threshold_some_true counts th fuel k b h
    exact ⟨hb, by rw [hb]; rfl⟩
  · simp [wait_for_threshold, hc, hth]

/-- Witness for C5 at concrete inputs: a store that always errors keeps the
monitor polling (here: still looping after 5 iterations), and a count of 9
meeting threshold 9 returns `True` immediately. -/
theorem wait_for_threshold_only_succeeds_witness :
    wait_for_threshold (fun _ => CountOutcome.err) 3 5 0 = none ∧
    wait_for_threshold (fun _ => CountOutcome.ok 9) 9 1 0 = some true :=
  ⟨wait_for_threshold_only_succeeds.2.2 (fun _ => CountOutcome.err) 3 (fun _ => rfl) 5 0,
   wait_for_threshold_only_succeeds.2.1 (fun _ => CountOutcome.ok 9) 9 0 0 9 rfl (by omega)⟩

/-- When every attempt's result is `None`, the `test_index` loop keeps
going until the cap check `iteration > 3 * iterations` first fires — which,
because the check runs after `iteration += 1`, is at `iteration = 3 *
iterations + 1`.  Stated for any reachable loop state with no successes
yet. -/
theorem test_index_go_all_fail (runSingle : Nat → Option TrialRow)
    (hfail : ∀ n, runSingle n = none) (iters : Nat) (hpos : 1 ≤ iters) :
    ∀ fuel iter, iter ≤ 3 * iters → 3 * iters - iter < fuel →
      test_index_go runSingle iters fuel 0 iter = (0, 3 * iters + 1) := by
  intro fuel
  induction fuel with
  | zero => intro iter h1 h2; omega
  | succ f ih =>
    intro iter h1 h2
    have hlt : 0 < iters := hpos
    by_cases hcap : 3 * iters < iter + 1
    · have heq : iter = 3 * iters := by omega
      simp [test_index_go, hlt, hfail, hcap, heq]
    · simp only [test_index_go, if_pos hlt, hfail iter, Option.isSome_none,
        Bool.false_eq_true, if_false, if_neg hcap]
      exact ih (iter + 1) (by omega) (by omega)

/-- C2 (amended): if every attempt at a trial fails, `test_index` stops
with `successful_count = 0` after exactly `3 * iters + 1` attempts — one
more than the claimed `3 * iters`, because the cap check `iteration >
self.config.iterations * 3` runs after `iteration += 1` and only breaks
once the count has already exceeded the cap. -/
theorem test_index_all_fail_stops_after_cap (runSingle : Nat → Option TrialRow)
    (hfail : ∀ n, runSingle n = none) (iters : Nat) (hpos : 1 ≤ iters) :
    test_index runSingle iters = (0, 3 * iters + 1) :=
  test_index_go_all_fail runSingle hfail iters hpos (3 * iters + 2) 0
    (by omega) (by omega)

/-- Witness for C2's amended claim at `iters = 5` with an always-`None`
attempt: 16 attempts, 0 successes. -/
theorem test_index_all_fail_stops_after_cap_witness :
    test_index (fun _ => (none : Option TrialRow)) 5 = (0, 16) := by
  have h := test_index_all_fail_stops_after_cap (fun _ => none) (fun _ => rfl) 5
    (by omega)
  norm_num at h
  exact h

/-- Counterexample to C2 as stated: with `configured_iterations = 5` and a
write call that always fails (so `run_single_test` returns `None` on every
attempt), `test_index` performs 16 attempts — not the claimed 15 — with 0
successful iterations. -/
theorem test_index_cap_counterexample :
    (test_index (fun _ => (run_single_test write_always_fails_env).2) 5).2 = 16 ∧
    (test_index (fun _ => (run_single_test write_always_fails_env).2) 5).1 = 0 ∧
    (test_index (fun _ => (run_single_test write_always_fails_env).2) 5).2 ≠ 15 := by
  decide

/-- C3: `run_single_test` returns a result row exactly when the write
succeeded and both polls returned an elapsed time, and in that case the
recorded `replication_time_ms` is the replica poll's elapsed time minus the
primary poll's elapsed time (and `indexing_time_ms` is the primary poll's
elapsed time). -/
theorem run_single_test_result_characterisation :
    (∀ env : TrialEnv,
        (run_single_test env).2.isSome = true ↔
          env.writeOk = true ∧ env.primaryPoll.isSome = true ∧
            env.replicaPoll.isSome = true) ∧
    (∀ (env : TrialEnv) (p r : ℚ), env.writeOk = true →
        env.primaryPoll = some p → env.replicaPoll = some r →
        (run_single_test env).2 =
          some { indexingTimeMs := p, replicationTimeMs := r - p }) := by
  constructor
  · rintro ⟨w, pp, rp⟩
    cases w <;> cases pp <;> cases rp <;> simp [run_single_test]
  · rintro ⟨w, pp, rp⟩ p r hw hp hr
    simp only at hw hp hr
    subst hw; subst hp; subst hr
    simp [run_single_test]

/-- Witness for C3 at a concrete trial: write succeeded, primary visible
after 10 ms, replica visible after 4 ms — the emitted row records
`replication_time_ms = 4 - 10` (negative values are allowed). -/
theorem run_single_test_result_characterisation_witness :
    (run_single_test
        { writeOk := true, primaryPoll := some 10, replicaPoll := some 4 }).2 =
      some { indexingTimeMs := 10, replicationTimeMs := 4 - 10 } :=
  run_single_test_result_characterisation.2
    { writeOk := true, primaryPoll := some 10, replicaPoll := some 4 }
    10 4 rfl rfl rfl

/-- C9: the replica-preference poll is issued only after the primary poll
confirmed visibility.  First conjunct: if the primary poll timed out
(returned `None`), no replica poll appears among the trial's steps.  Second
conjunct: wherever a replica poll occurs in the step sequence, a primary
poll occurs strictly before it, the write succeeded, and the primary poll
returned an elapsed time. -/
theorem replica_poll_only_after_primary :
    (∀ env : TrialEnv, env.primaryPoll = none →
        TrialAction.pollReplica ∉ (run_single_test env).1) ∧
    (∀ (env : TrialEnv) (l1 l2 : List TrialAction),
        (run_single_test env).1 = l1 ++ TrialAction.pollReplica :: l2 →
        TrialAction.pollPrimary ∈ l1 ∧ env.writeOk = true ∧
          ∃ p, env.primaryPoll = some p) := by
  constructor
  · rintro ⟨w, pp, rp⟩ hp
    simp only at hp
    subst hp
    cases w <;> cases rp <;> simp [run_single_test]
  · rintro ⟨w, pp, rp⟩ l1 l2 h
    cases w <;> cases pp <;> cases rp <;>
      simp only [run_single_test] at h <;>
      rcases l1 with _ | ⟨a, _ | ⟨b, _ | ⟨c, l1⟩⟩⟩ <;>
      simp_all

/-- Witness for C9 at a concrete successful trial: in the step sequence
`[write, poll primary, poll replica]`, the replica poll is preceded by the
primary poll, and the primary poll had returned 2 ms. -/
theorem replica_poll_only_after_primary_witness :
    TrialAction.pollPrimary ∈ [TrialAction.writeDoc, TrialAction.pollPrimary] ∧
    ({ writeOk := true, primaryPoll := some 2, replicaPoll := some 3 } :
        TrialEnv).writeOk = true ∧
    ∃ p, ({ writeOk := true, primaryPoll := some 2, replicaPoll := some 3 } :
        TrialEnv).primaryPoll = some p :=
  replica_poll_only_after_primary.2
    { writeOk := true, primaryPoll := some 2, replicaPoll := some 3 }
    [TrialAction.writeDoc, TrialAction.pollPrimary] [] rfl

/-- C4 fails on the code: `generate_document` requests its padding with
`faker.text(max_nb_chars = gap + 100)`, which only bounds the padding's
length from above.  With a 300-byte base document, a 1024-byte minimum
(`--min-doc-size-kb 1`) and a faker draw of 500 encoded bytes — below the
824 requested, as the library permits (first conjunct) — the final document
is 800 bytes, short of the minimum. -/
theorem generate_document_can_undershoot_minimum :
    (∀ n, short_text_env.textEncLen n ≤ n) ∧
    generate_document_size 1024 short_text_env = 800 ∧
    generate_document_size 1024 short_text_env < 1024 :=
  ⟨fun n => Nat.min_le_right 500 n, by decide, by decide⟩

/-- C6 fails on the code: after two primary timeouts and one emitted
result, the result's `timeouts` field reads `{primary: 2, replica: 0}` (and
that is the value persisted to the CSV) — but one more primary timeout in a
later trial makes the *same* in-memory result read `{primary: 3, replica:
0}`, because the emitted dict holds a reference to the live counters, not a
copy.  Only the CSV row keeps the snapshot value. -/
theorem trial_result_snapshot_mutates :
    read_mem_timeouts (run_events initial_run_state
        [RunEvent.primaryTimeout, RunEvent.primaryTimeout, RunEvent.emitResult]) =
      { primary := 2, replica := 0 } ∧
    (run_events initial_run_state
        [RunEvent.primaryTimeout, RunEvent.primaryTimeout,
         RunEvent.emitResult]).csvRows = [{ primary := 2, replica := 0 }] ∧
    read_mem_timeouts (run_events initial_run_state
        [RunEvent.primaryTimeout, RunEvent.primaryTimeout, RunEvent.emitResult,
         RunEvent.primaryTimeout]) = { primary := 3, replica := 0 } ∧
    read_mem_timeouts (run_events initial_run_state
        [RunEvent.primaryTimeout, RunEvent.primaryTimeout, RunEvent.emitResult,
         RunEvent.primaryTimeout]) ≠
      ({ primary := 2, replica := 0 } : TimeoutCounters) ∧
    (run_events initial_run_state
        [RunEvent.primaryTimeout, RunEvent.primaryTimeout, RunEvent.emitResult,
         RunEvent.primaryTimeout]).csvRows = [{ primary := 2, replica := 0 }] := by
  decide

/-- C7 fails on the code: a collection with zero successful trials reaches
`generate_report` as an empty row list; `pd.DataFrame([])` has no columns,
so the first column access raises `KeyError: 'indexing_time_ms'` and the
report generation fails instead of producing a "no data" entry. -/
theorem generate_report_empty_collection_raises :
    generate_report [("idx", [])] = Except.error "KeyError: indexing_time_ms" ∧
    generate_report_entry ([] : List ReportRow) =
      Except.error "KeyError: indexing_time_ms" :=
  ⟨rfl, rfl⟩

/-- The sorted latency sample behind `sample_rows`. -/
theorem sorted_sample : sort_values [30, 10, 50, 20, 40] = [10, 20, 30, 40, 50] := by
  norm_num [sort_values, insert_sorted]

/-- p50 of the sample `[10, 20, 30, 40, 50]`: position `0.5 * 4 = 2`,
no interpolation, value 30. -/
theorem sample_q50 : series_quantile [30, 10, 50, 20, 40] (1 / 2) = some 30 := by
  have hfl : ⌊(1/2 : ℚ) * ((((10:ℚ) :: [20, 30, 40, 50]).length : ℚ) - 1)⌋ = 2 := by
    norm_num [Int.floor_eq_iff]
  have ht : Int.toNat 2 = 2 := rfl
  simp only [series_quantile, sorted_sample, hfl, ht]
  norm_num

/-- p90 of the sample: position `0.9 * 4 = 3.6`, interpolating
`40 + 0.6 * (50 - 40) = 46`. -/
theorem sample_q90 : series_quantile [30, 10, 50, 20, 40] (9 / 10) = some 46 := by
  have hfl : ⌊(9/10 : ℚ) * ((((10:ℚ) :: [20, 30, 40, 50]).length : ℚ) - 1)⌋ = 3 := by
    norm_num [Int.floor_eq_iff]
  have ht : Int.toNat 3 = 3 := rfl
  simp only [series_quantile, sorted_sample, hfl, ht]
  norm_num

/-- p99 of the sample: position `0.99 * 4 = 3.96`, interpolating
`40 + 0.96 * (50 - 40) = 49.6 = 248/5`. -/
theorem sample_q99 : series_quantile [30, 10, 50, 20, 40] (99 / 100) = some (248 / 5) := by
  have hfl : ⌊(99/100 : ℚ) * ((((10:ℚ) :: [20, 30, 40, 50]).length : ℚ) - 1)⌋ = 3 := by
    norm_num [Int.floor_eq_iff]
  have ht : Int.toNat 3 = 3 := rfl
  simp only [series_quantile, sorted_sample, hfl, ht]
  norm_num

/-- C8: on the latency sample `[10, 20, 30, 40, 50]` (fed to the report
unsorted in both latency columns), the report's linear-interpolated
quantiles are exactly p50 = 30, p90 = 46 and p99 = 49.6 (= 248/5). -/
theorem report_quantiles_linear_interpolation :
    generate_report_entry sample_rows = Except.ok
      { totalTests := 5, successfulTests := 5,
        indexingP50 := some 30, indexingP90 := some 46,
        indexingP99 := some (248 / 5),
        replicationP50 := some 30, replicationP90 := some 46,
        replicationP99 := some (248 / 5) } := by
  show (Except.ok
      { totalTests := 5
        successfulTests := 5
        indexingP50 := series_quantile [30, 10, 50, 20, 40] (1 / 2)
        indexingP90 := series_quantile [30, 10, 50, 20, 40] (9 / 10)
        indexingP99 := series_quantile [30, 10, 50, 20, 40] (99 / 100)
        replicationP50 := series_quantile [30, 10, 50, 20, 40] (1 / 2)
        replicationP90 := series_quantile [30, 10, 50, 20, 40] (9 / 10)
        replicationP99 := series_quantile [30, 10, 50, 20, 40] (99 / 100) } :
      Except String ReportEntry) = Except.ok
      { totalTests := 5, successfulTests := 5,
        indexingP50 := some 30, indexingP90 := some 46,
        indexingP99 := some (248 / 5),
        replicationP50 := some 30, replicationP90 := some 46,
        replicationP99 := some (248 / 5) }
  rw [sample_q50, sample_q90, sample_q99]

/-- The seed of Python `max` is a lower bound of the fold result. -/
theorem foldl_max_init_le (xs : List Nat) : ∀ x : Nat, x ≤ xs.foldl Nat.max x := by
  induction xs with
  | nil => intro x; exact Nat.le_refl x
  | cons y ys ih =>
    intro x
    exact Nat.le_trans (Nat.le_max_left x y) (ih (Nat.max x y))

/-- Every element below Python `max` of seed and list. -/
theorem foldl_max_ge (xs : List Nat) :
    ∀ x a, a ∈ x :: xs → a ≤ xs.foldl Nat.max x := by
  induction xs with
  | nil =>
    intro x a h
    rw [List.mem_singleton] at h
    rw [h]
    exact Nat.le_refl x
  | cons y ys ih =>
    intro x a h
    rw [List.foldl_cons]
    rcases List.mem_cons.mp h with rfl | h1
    · exact Nat.le_trans (Nat.le_max_left a y) (foldl_max_init_le ys (Nat.max a y))
    · rcases List.mem_cons.mp h1 with rfl | h2
      · exact Nat.le_trans (Nat.le_max_right x a) (foldl_max_init_le ys (Nat.max x a))
      · exact ih (Nat.max x y) a (List.mem_cons_of_mem _ h2)

/-- Python `max` of seed and list is the seed or one of the elements. -/
theorem foldl_max_mem (xs : List Nat) : ∀ x : Nat, xs.foldl Nat.max x ∈ x :: xs := by
  induction xs with
  | nil => intro x; exact List.mem_singleton.mpr rfl
  | cons y ys ih =>
    intro x
    rw [List.foldl_cons]
    rcases List.mem_cons.mp (ih (Nat.max x y)) with h1 | h1
    · rcases Nat.le_total x y with hxy | hxy
      · have hm : Nat.max x y = y := Nat.max_eq_right hxy
        rw [h1, hm]
        exact List.mem_cons_of_mem x (List.mem_cons_self y ys)
      · have hm : Nat.max x y = x := Nat.max_eq_left hxy
        rw [h1, hm]
        exact List.mem_cons_self x _
    · exact List.mem_cons_of_mem x (List.mem_cons_of_mem y h1)

/-- The seed of Python `min` is an upper bound of the fold result. -/
theorem foldl_min_init_ge (xs : List Nat) : ∀ x : Nat, xs.foldl Nat.min x ≤ x := by
  induction xs with
  | nil => intro x; exact Nat.le_refl x
  | cons y ys ih =>
    intro x
    exact Nat.le_trans (ih (Nat.min x y)) (Nat.min_le_left x y)

/-- Python `min` of seed and list is below every element. -/
theorem foldl_min_le (xs : List Nat) :
    ∀ x a, a ∈ x :: xs → xs.foldl Nat.min x ≤ a := by
  induction xs with
  | nil =>
    intro x a h
    rw [List.mem_singleton] at h
    rw [h]
    exact Nat.le_refl x
  | cons y ys ih =>
    intro x a h
    rw [List.foldl_cons]
    rcases List.mem_cons.mp h with rfl | h1
    · exact Nat.le_trans (foldl_min_init_ge ys (Nat.min a y)) (Nat.min_le_left a y)
    · rcases List.mem_cons.mp h1 with rfl | h2
      · exact Nat.le_trans (foldl_min_init_ge ys (Nat.min x a)) (Nat.min_le_right x a)
      · exact ih (Nat.min x y) a (List.mem_cons_of_mem _ h2)

/-- Python `min` of seed and list is the seed or one of the elements. -/
theorem foldl_min_mem (xs : List Nat) : ∀ x : Nat, xs.foldl Nat.min x ∈ x :: xs := by
  induction xs with
  | nil => intro x; exact List.mem_singleton.mpr rfl
  | cons y ys ih =>
    intro x
    rw [List.foldl_cons]
    rcases List.mem_cons.mp (ih (Nat.min x y)) with h1 | h1
    · rcases Nat.le_total x y with hxy | hxy
      · have hm : Nat.min x y = x := Nat.min_eq_left hxy
        rw [h1, hm]
        exact List.mem_cons_self x _
      · have hm : Nat.min x y = y := Nat.min_eq_right hxy
        rw [h1, hm]
        exact List.mem_cons_of_mem x (List.mem_cons_self y ys)
    · exact List.mem_cons_of_mem x (List.mem_cons_of_mem y h1)

/-- The spread check flags nothing exactly when every pair of per-node
counts differs by at most 1 — i.e. `max - min ≤ 1` on a non-empty list,
vacuously on an empty one. -/
theorem counts_imbalanced_false_iff (counts : List Nat) :
    counts_imbalanced counts = false ↔
      ∀ a ∈ counts, ∀ b ∈ counts, a - b ≤ 1 := by
  cases counts with
  | nil => simp [counts_imbalanced, list_min, list_max]
  | cons x xs =>
    simp only [counts_imbalanced, list_min, list_max, decide_eq_false_iff_not,
      Nat.not_lt]
    constructor
    · intro h a ha b hb
      have hmax := foldl_max_ge xs x a ha
      have hmin := foldl_min_le xs x b hb
      omega
    · intro h
      have hmx := foldl_max_mem xs x
      have hmn := foldl_min_mem xs x
      have := h _ hmx _ hmn
      omega

/-- C10: the distribution report of `analyze_index_distribution`.  First
conjunct: every reported index is non-internal.  Second conjunct: every
non-internal index of the summary is reported, with the `is_balanced`
verdict computed by the source.  Third conjunct: that verdict is `True`
exactly when the per-node primary counts and the per-node replica counts
each have spread at most 1 — `max - min ≤ 1`, stated pairwise so that an
empty count list is balanced vacuously. -/
theorem analyze_index_distribution_characterisation :
    (∀ (summary : List (String × IndexStats)) (name : String) (b : Bool),
        (name, b) ∈ analyze_index_distribution summary →
        is_internal_index name = false) ∧
    (∀ (summary : List (String × IndexStats)) (name : String) (stats : IndexStats),
        (name, stats) ∈ summary → is_internal_index name = false →
        (name, index_is_balanced stats) ∈ analyze_index_distribution summary) ∧
    (∀ stats : IndexStats,
        index_is_balanced stats = true ↔
          ((∀ a ∈ stats.primaryCounts, ∀ b ∈ stats.primaryCounts, a - b ≤ 1) ∧
           (∀ a ∈ stats.replicaCounts, ∀ b ∈ stats.replicaCounts, a - b ≤ 1))) := by
  refine ⟨?_, ?_, ?_⟩
  · intro summary name b h
    simp only [analyze_index_distribution, List.mem_map] at h
    obtain ⟨p, hp, heq⟩ := h
    rw [List.mem_filter] at hp
    have h2 := hp.2
    rw [Bool.not_eq_true'] at h2
    have hname : p.1 = name := congrArg Prod.fst heq
    rw [← hname]
    exact h2
  · intro summary name stats h1 h2
    simp only [analyze_index_distribution, List.mem_map]
    refine ⟨(name, stats), ?_, rfl⟩
    rw [List.mem_filter]
    exact ⟨h1, by rw [h2]; rfl⟩
  · intro stats
    rw [index_is_balanced, Bool.and_eq_true, Bool.not_eq_true',
      Bool.not_eq_true', counts_imbalanced_false_iff, counts_imbalanced_false_iff]

/-- Witness for C10 at a concrete summary: the non-internal index `"logs"`
with per-node primary counts `[2, 1]` and replica counts `[1, 1]` is
reported (balanced, spread 1 on each list), while the internal index
`".kibana"` gets no report entry. -/
theorem analyze_index_distribution_witness :
    ("logs", index_is_balanced { primaryCounts := [2, 1], replicaCounts := [1, 1] }) ∈
      analyze_index_distribution
        [(".kibana", { primaryCounts := [3], replicaCounts := [] }),
         ("logs", { primaryCounts := [2, 1], replicaCounts := [1, 1] })] :=
  analyze_index_distribution_characterisation.2.1
    [(".kibana", { primaryCounts := [3], replicaCounts := [] }),
     ("logs", { primaryCounts := [2, 1], replicaCounts := [1, 1] })]
    "logs" { primaryCounts := [2, 1], replicaCounts := [1, 1] }
    (List.mem_cons_of_mem _ (List.mem_cons_self _ _)) (by decide)
